import Mathlib

/-!
Verification of the TCIA dataset-browser sync pipeline (`src/sync_data.py`)
against its natural-language specification. Python values are shallowly
embedded as `PyVal`, pandas tables as Lean lists, and each pipeline step of
`sync_data.main` as an explicit Lean function translated from the source.
-/

namespace TciaSync

/-- Embedding of the loosely-typed Python values that reach
`parse_api_list` and the related-dataset resolution: `None`, booleans,
integers, the float `NaN` (the only float pandas feeds these helpers),
strings, and (nested) lists. Non-NaN floats do not occur in the modelled
columns. -/
inductive PyVal where
  | vNone : PyVal
  | vBool (b : Bool) : PyVal
  | vInt (n : Int) : PyVal
  | vNan : PyVal
  | vStr (s : String) : PyVal
  | vList (xs : List PyVal) : PyVal

mutual

/-- Python `repr()` on an embedded value (list elements are rendered with
`repr`, strings quoted). -/
def pyRepr : PyVal → String
  | PyVal.vNone => "None"
  | PyVal.vBool true => "True"
  | PyVal.vBool false => "False"
  | PyVal.vInt n => toString n
  | PyVal.vNan => "nan"
  | PyVal.vStr s => "'" ++ s ++ "'"
  | PyVal.vList xs => "[" ++ pyReprList xs ++ "]"

/-- Comma-separated rendering of a list body, as Python's list `repr`. -/
def pyReprList : List PyVal → String
  | [] => ""
  | [x] => pyRepr x
  | x :: y :: xs => pyRepr x ++ ", " ++ pyReprList (y :: xs)

end

/-- Python `str()`: identical to `repr()` except on strings, which are
returned unquoted (list elements are still rendered with `repr`). -/
def pyStr : PyVal → String
  | PyVal.vNone => "None"
  | PyVal.vBool true => "True"
  | PyVal.vBool false => "False"
  | PyVal.vInt n => toString n
  | PyVal.vNan => "nan"
  | PyVal.vStr s => s
  | PyVal.vList xs => "[" ++ pyReprList xs ++ "]"

/-- Python truth of `value is False`. -/
def isFalseLiteral : PyVal → Bool
  | PyVal.vBool false => true
  | _ => false

/-- Python truth of `value == ''` (only a string equals `''`). -/
def isEmptyStr : PyVal → Bool
  | PyVal.vStr s => s == ""
  | _ => false

/-- Python truth of `isinstance(value, float) and pd.isna(value)`. -/
def isNan : PyVal → Bool
  | PyVal.vNan => true
  | _ => false

/-- Whitespace skipping for the literal parser. -/
def skipWs : List Char → List Char
  | c :: cs => if c == ' ' || c == '\t' || c == '\n' || c == '\r' then skipWs cs else c :: cs
  | [] => []

/-- Leading decimal digits of a character list, and the rest. -/
def takeDigits : List Char → (List Char × List Char)
  | c :: cs =>
    if c.isDigit then
      let p := takeDigits cs
      (c :: p.1, p.2)
    else ([], c :: cs)
  | [] => ([], [])

/-- Numeric value of a digit list. -/
def digitsToNat (ds : List Char) : Nat :=
  ds.foldl (fun a c => a * 10 + (c.toNat - 48)) 0

/-- Body of a quoted string literal up to the closing quote `q`
(escape sequences are out of the modelled subset). -/
def parseStrBody (q : Char) : List Char → Option (String × List Char)
  | c :: cs =>
    if c == q then Option.some ("", cs)
    else
      match parseStrBody q cs with
      | Option.some (s, r) => Option.some (String.singleton c ++ s, r)
      | Option.none => Option.none
  | [] => Option.none

/-- Leading identifier characters (letters) of a character list. -/
def takeAlpha : List Char → (List Char × List Char)
  | c :: cs =>
    if c.isAlpha then
      let p := takeAlpha cs
      (c :: p.1, p.2)
    else ([], c :: cs)
  | [] => ([], [])

mutual

/-- Fueled recursive-descent parser for the subset of Python literals
`ast.literal_eval` is exercised on by this pipeline: `None`, `True`,
`False`, integers, quoted strings, and (nested) list displays. Anything
outside the subset fails (`Option.none`), matching `literal_eval` raising. -/
def parseVal : Nat → List Char → Option (PyVal × List Char)
  | 0, _ => Option.none
  | Nat.succ f, cs =>
    match skipWs cs with
    | [] => Option.none
    | '\'' :: rest =>
      match parseStrBody '\'' rest with
      | Option.some (s, r) => Option.some (PyVal.vStr s, r)
      | Option.none => Option.none
    | '"' :: rest =>
      match parseStrBody '"' rest with
      | Option.some (s, r) => Option.some (PyVal.vStr s, r)
      | Option.none => Option.none
    | '[' :: rest =>
      match skipWs rest with
      | ']' :: r => Option.some (PyVal.vList [], r)
      | r => parseItems f r []
    | '-' :: rest =>
      match takeDigits rest with
      | ([], _) => Option.none
      | (ds, r) => Option.some (PyVal.vInt (-(Int.ofNat (digitsToNat ds))), r)
    | c :: rest =>
      if c.isDigit then
        match takeDigits (c :: rest) with
        | (ds, r) => Option.some (PyVal.vInt (Int.ofNat (digitsToNat ds)), r)
      else
        match takeAlpha (c :: rest) with
        | (ids, r) =>
          let w := String.mk ids
          if w == "None" then Option.some (PyVal.vNone, r)
          else if w == "True" then Option.some (PyVal.vBool true, r)
          else if w == "False" then Option.some (PyVal.vBool false, r)
          else Option.none

/-- Items of a list display after the opening bracket, accumulating into
`acc`, up to the closing bracket. -/
def parseItems : Nat → List Char → List PyVal → Option (PyVal × List Char)
  | 0, _, _ => Option.none
  | Nat.succ f, cs, acc =>
    match parseVal f cs with
    | Option.none => Option.none
    | Option.some (v, r) =>
      match skipWs r with
      | ',' :: r2 => parseItems f r2 (acc ++ [v])
      | ']' :: r2 => Option.some (PyVal.vList (acc ++ [v]), r2)
      | _ => Option.none

end

/-- Model of `ast.literal_eval` on the modelled literal subset: parse the whole
string (surrounding whitespace allowed); `Option.none` models the
`ValueError`/`SyntaxError` caught by `parse_api_list`. -/
def literalEval (s : String) : Option PyVal :=
  let cs := s.data
  match parseVal (2 * cs.length + 2) cs with
  | Option.some (v, rest) =>
    match skipWs rest with
    | [] => Option.some v
    | _ :: _ => Option.none
  | Option.none => Option.none

/-- Python `str.lower()` on one character (ASCII case fold; the DOIs and
sentinels handled here are ASCII). -/
def pyLowerChar (c : Char) : Char :=
  if 'A' <= c && c <= 'Z' then Char.ofNat (c.toNat + 32) else c

/-- Python `s.lower()` on a string. -/
def pyLower (s : String) : String :=
  String.mk (s.data.map pyLowerChar)

/-- Translation of `sync_data.parse_api_list` (lines 20-29): lists are returned as-is;
`False`, `''`, float NaN, and any value whose `str()` lowercases to
`"false"` give `[]`; otherwise `ast.literal_eval(str(value))` is tried,
a parsed list is returned as-is, a parsed scalar is wrapped, and a parse
failure wraps the original value. -/
def parse_api_list (value : PyVal) : List PyVal :=
  match value with
  | PyVal.vList xs => xs
  | v =>
    if isFalseLiteral v || isEmptyStr v || isNan v || pyLower (pyStr v) == "false" then []
    else
      match literalEval (pyStr v) with
      | Option.some (PyVal.vList xs) => xs
      | Option.some p => [p]
      | Option.none => [v]

/-- Python `str.strip()` at the character level: drop leading and trailing
whitespace. -/
def isPySpace (c : Char) : Bool :=
  c == ' ' || c == '\t' || c == '\n' || c == '\r' || c == '\x0b' || c == '\x0c'

/-- Python `s.strip()` on a string. -/
def pyStrip (s : String) : String :=
  String.mk (((s.data.dropWhile isPySpace).reverse.dropWhile isPySpace).reverse)

/-- Test that `needle` is a prefix of `hay` (character lists). -/
def charsHasPre (needle hay : List Char) : Bool :=
  match needle, hay with
  | [], _ => true
  | _ :: _, [] => false
  | n :: ns, h :: hs => n == h && charsHasPre ns hs

/-- Test that `needle` occurs as a contiguous substring of `hay` (character lists). -/
def charsContains (hay needle : List Char) : Bool :=
  match hay with
  | [] => needle.isEmpty
  | _ :: hs => charsHasPre needle hay || charsContains hs needle

/-- Substring test on strings (Python `needle in hay` / `re.search` on a
fixed word). -/
def strContains (hay needle : String) : Bool :=
  charsContains hay.data needle.data

/-- The failure-pattern test of line 214,
`citation.str.contains("not found|Could not retrieve|No DOI|^$")`: a regex
search, true when the citation contains one of the three diagnostic words
or matches the empty-line alternative `^$` (without `re.M`, that
alternative matches exactly the empty string and the string `"\n"`). -/
def isFailureCitation (c : String) : Bool :=
  strContains c "not found" || strContains c "Could not retrieve" ||
    strContains c "No DOI" || c == "" || c == "\n"

/-- One row of the citations cache table (`citations_cache.parquet`),
columns `doi` and `citation`. -/
structure CitEntry where
  doi : String
  citation : String
deriving Repr, DecidableEq

/-- Model of `pd.concat(...).drop_duplicates(subset='doi', keep='last')` (line 227):
keep each row whose `doi` does not recur later, preserving order. -/
def dropDupKeepLast : List CitEntry → List CitEntry
  | [] => []
  | e :: rest =>
    if rest.any (fun e2 => e2.doi == e.doi) then dropDupKeepLast rest
    else e :: dropDupKeepLast rest

/-- Lines 226-228: the persisted cache after a run that fetched
`newCitations` — the old cache with the new rows appended, deduplicated by
`doi` keeping the newest. -/
def updateCitationCache (cache newCitations : List CitEntry) : List CitEntry :=
  dropDupKeepLast (cache ++ newCitations)

/-- A master row at the citation-enrichment stage: its `doi` (a string,
after `astype(str)` at line 147) and its resolved `citation` (after the
`fillna('')` of line 211). -/
structure CitRecord where
  doi : String
  citation : String
deriving Repr, DecidableEq

/-- Line 210-211: left-join of the citations cache onto the master rows by
exact `doi` equality, then `fillna('')`. An unmatched row gets the empty
citation; each matching cache row yields one output row (pandas merge
multiplicity). -/
def mergeCitations (cache : List CitEntry) (dois : List String) : List CitRecord :=
  (dois.map (fun d =>
    let ms := cache.filter (fun e => e.doi == d)
    if ms.isEmpty then [CitRecord.mk d ""]
    else ms.map (fun e => CitRecord.mk d e.citation))).flatten

/-- Line 213-215: `rows_to_update`, the rows whose citation matches the
failure-pattern regex. -/
def selectedRows (recs : List CitRecord) : List CitRecord :=
  recs.filter (fun r => isFailureCitation r.citation)

/-- Lines 220-223: the DOIs passed to `get_apa_citation`, one call per
selected row whose `doi` is a non-empty string after `strip()`. -/
def citationCalls (selected : List CitRecord) : List String :=
  selected.filterMap (fun r =>
    if pyStrip r.doi == "" then Option.none else Option.some r.doi)

/-- The `new_citations` dict built in the fetch loop: one `(doi, fetched
citation)` assignment per call, later assignments to the same key
overwriting earlier ones. -/
def newCitations (fetch : String → String) (selected : List CitRecord) :
    List (String × String) :=
  (citationCalls selected).map (fun d => (d, fetch d))

/-- Python dict lookup on an assignment list: the last binding wins. -/
def dictLookup (kvs : List (String × String)) (k : String) : Option String :=
  (kvs.reverse.find? (fun p => p.1 == k)).map Prod.snd

/-- Line 225: `master_df['doi'].map(new_citations).fillna(master_df['citation'])`
applied to one row — take the newly fetched citation when the row's exact
`doi` is a dict key, else keep the old citation. -/
def applyNewCitations (nc : List (String × String)) (r : CitRecord) : CitRecord :=
  match dictLookup nc r.doi with
  | Option.some c => CitRecord.mk r.doi c
  | Option.none => r

/-- Lines 217-228 control flow: the cache file is rewritten exactly when
`rows_to_update` is non-empty and the `new_citations` dict is non-empty. -/
def citationCacheWritten (recs : List CitRecord) : Bool :=
  !(selectedRows recs).isEmpty && !(citationCalls (selectedRows recs)).isEmpty

/-- A master row at the abstract-merge stage: its `doi` and its `summary`
after the left-join of line 197-202 (`Option.none` models the NaN of an
unmatched row). -/
structure SummaryRecord where
  doi : String
  summary : Option String
deriving Repr, DecidableEq

/-- Lines 193-202: left-join of the DataCite table (rows `(doi,
Description)`) onto the master rows, matching on lower-cased DOI; an
unmatched row gets NaN, each matching DataCite row yields one output row. -/
def mergeSummaries (datacite : List (String × String)) (dois : List String) :
    List SummaryRecord :=
  (dois.map (fun d =>
    let ms := datacite.filter (fun e => pyLower e.1 == pyLower d)
    if ms.isEmpty then [SummaryRecord.mk d Option.none]
    else ms.map (fun e => SummaryRecord.mk d (Option.some e.2)))).flatten

/-- Line 241, `master_df[col].astype(str).fillna('')` on one cell: pandas
`astype(str)` renders a NaN cell as the string `"nan"`, after which the
`fillna('')` finds no NaN left and changes nothing. -/
def finalizeStringCell : Option String → String
  | Option.some s => s
  | Option.none => "nan"

/-- Lexicographic code-point comparison of character lists, as Python
compares strings. -/
def charListLe : List Char → List Char → Bool
  | [], _ => true
  | _ :: _, [] => false
  | a :: as, b :: bs =>
    if a.toNat = b.toNat then charListLe as bs else Nat.blt a.toNat b.toNat

/-- Python string comparison `a <= b` (code-point lexicographic). -/
def pyStrLe (a b : String) : Bool :=
  charListLe a.data b.data

/-- Insertion sort by `pyStrLe`, modelling Python `sorted` on the resolved
titles (equal keys are equal strings, so stability is moot). -/
def sortStrings (l : List String) : List String :=
  List.insertionSort (fun a b => pyStrLe a b = true) l

/-- Lines 181-186: `related_datasets_ids`, the concatenation of the three
parsed relationship-ID fields of a row. -/
def relatedDatasetsIds (relCollection relCollections relAnalysisResults : PyVal) :
    List PyVal :=
  parse_api_list relCollection ++ parse_api_list relCollections ++
    parse_api_list relAnalysisResults

/-- Lines 187-189: resolve each related ID through the ID→title dict `m`
(`id_to_title_map.get(str(i), f"ID: {i}")`) and sort the titles. -/
def resolveRelated (m : String → Option String) (ids : List PyVal) : List String :=
  sortStrings (ids.map (fun i => (m (pyStr i)).getD ("ID: " ++ pyStr i)))

/-- Lines 247-252: `final_cols`, the exact column list the persisted
unified table is cut down to before `to_parquet`. -/
def final_cols : List String :=
  ["id", "link", "title", "short_title", "summary", "dataset_type", "citation", "doi",
   "cancer_types", "cancer_locations", "supporting_data", "data_types",
   "number_of_subjects", "date_updated", "program", "related_datasets", "access_type",
   "collection_downloads", "result_downloads"]

/-- Lines 71-76: the `fields` list requested from the downloads feed. -/
def downloads_fields : List String :=
  ["id", "date_updated", "download_title", "data_license", "download_access",
   "data_type", "file_type", "download_size", "download_size_unit", "subjects",
   "study_count", "series_count", "image_count", "download_type",
   "download_url", "search_url", "download_file"]

/-- Line 80: the downloads cache is persisted with `download_file` dropped. -/
def downloadsCacheCols : List String :=
  downloads_fields.filter (fun c => !(c == "download_file"))

/-- Lines 255-265: the column-existence loop — every column of `final_cols`
missing from the frame is added (with a type-appropriate default). Only the
column list is tracked here. -/
def ensureCols (present : List String) : List String :=
  final_cols.foldl (fun acc c => if acc.contains c then acc else acc ++ [c]) present

/-- Line 267, `master_df = master_df[final_cols]`: select exactly
`final_cols`, in that order; pandas raises if one is missing (cannot happen
after `ensureCols`). -/
def selectCols (present : List String) : Option (List String) :=
  if final_cols.all (fun c => present.contains c) then Option.some final_cols
  else Option.none

/-- Lines 255-268: the column list of the table written to
`tcia_master_data.parquet`, as a function of the columns present before
finalization. -/
def savedColumns (present : List String) : Option (List String) :=
  selectCols (ensureCols present)

/-- The DatasetRecord schema of spec §3, flattened to the table's
snake_case column naming. Written from the spec's words (not from the
source) to compare against `final_cols`. -/
def specDatasetRecordCols : List String :=
  ["id", "dataset_type", "title", "short_title", "link", "doi", "access_type",
   "cancer_types", "cancer_locations", "supporting_data", "data_types", "program",
   "number_of_subjects", "date_updated", "related_datasets_ids", "related_datasets",
   "downloads", "summary", "citation"]

/-- The four upstream fetches of lines 66-77, each either a success
(payload irrelevant to the control flow) or a raised exception with its
message. -/
structure SyncFetches where
  collections : Except String Unit
  analyses : Except String Unit
  datacite : Except String Unit
  downloads : Except String Unit
deriving Repr

/-- The externally observable effects of one `sync_data.main` run. -/
structure SyncEffects where
  downloadsCacheWritten : Bool
  masterWritten : Bool
  exitCode : Nat
  fatalMessage : Option String
deriving Repr, DecidableEq

/-- Line 91: the diagnostic printed when any fetch raises — a fixed text
carrying only the exception details, independent of which source failed. -/
def fatalMsg (e : String) : String :=
  "FATAL ERROR: Could not fetch data. Details: " ++ e

/-- The message of the first fetch that raises, in the evaluation order of
lines 66-77, if any. -/
def firstFetchError (f : SyncFetches) : Option String :=
  match f.collections with
  | Except.error e => Option.some e
  | Except.ok _ =>
    match f.analyses with
    | Except.error e => Option.some e
    | Except.ok _ =>
      match f.datacite with
      | Except.error e => Option.some e
      | Except.ok _ =>
        match f.downloads with
        | Except.error e => Option.some e
        | Except.ok _ => Option.none

/-- Control flow of `sync_data.main` (lines 58-269): any raising fetch is
caught by the `except` of lines 90-92, which prints the fatal diagnostic
and returns from `main` — the Python process then exits normally, so the
exit code is 0 on the failure path as well as on success, and neither the
downloads cache nor the unified table is written. On success both tables
are written (payload processing is modelled by the step functions above;
only the run's effects are tracked here). -/
def runSync (f : SyncFetches) : SyncEffects :=
  match firstFetchError f with
  | Option.some e => SyncEffects.mk false false 0 (Option.some (fatalMsg e))
  | Option.none => SyncEffects.mk true true 0 Option.none

/-! ## Claim C9 — idempotence of `parse_api_list` -/

/-- C9: `parse_api_list` is idempotent — feeding its result (a Python list)
back in returns it unchanged, since line 21-22 returns list inputs as-is. -/
theorem parse_api_list_idempotent (x : PyVal) :
    parse_api_list (PyVal.vList (parse_api_list x)) = parse_api_list x := rfl

/-! ## Claim C8 — shape of `parse_api_list` -/

/-- C8 counterexample: on a list input holding a null and an integer the
code returns the list unchanged (line 22 `return value`), so the elements
are neither coerced to string nor is the null dropped, contrary to the
claimed result `["1"]`. -/
theorem parse_api_list_list_as_is_counterexample :
    parse_api_list (PyVal.vList [PyVal.vNone, PyVal.vInt 1]) = [PyVal.vNone, PyVal.vInt 1]
    ∧ parse_api_list (PyVal.vList [PyVal.vNone, PyVal.vInt 1]) ≠ [PyVal.vStr "1"] := by
  refine ⟨rfl, fun h => ?_⟩
  injection h with h1 h2
  cases h1

/-- C8 (amended): `parse_api_list` always returns a list and never raises;
a list input is returned as-is (unchanged — elements are not coerced to
string and nulls are not dropped), and boolean false, the empty string,
float NaN, and any string lowercasing to `"false"` give the empty list. -/
theorem parse_api_list_shape (xs : List PyVal) (s : String)
    (hs : pyLower s = "false") :
    parse_api_list (PyVal.vList xs) = xs
    ∧ parse_api_list (PyVal.vBool false) = []
    ∧ parse_api_list (PyVal.vStr "") = []
    ∧ parse_api_list PyVal.vNan = []
    ∧ parse_api_list (PyVal.vStr s) = [] := by
  refine ⟨rfl, rfl, rfl, rfl, ?_⟩
  simp [parse_api_list, isFalseLiteral, isEmptyStr, isNan, pyStr, hs]

/-- C8 witness: the amended statement at the concrete input `"FALSE"`. -/
theorem parse_api_list_shape_witness :
    pyLower "FALSE" = "false" ∧ parse_api_list (PyVal.vStr "FALSE") = [] := by
  refine ⟨by decide, ?_⟩
  exact (parse_api_list_shape [] "FALSE" (by decide)).2.2.2.2

/-! ## Claim C1 — effects of a fetch failure -/

/-- C1 counterexample: with the collections fetch raising `"boom"`, the run
writes no unified table but the process exit code is 0, not non-zero
(lines 90-92 print and `return` from `main`, ending the script normally). -/
theorem sync_fetch_failure_exit_zero_counterexample :
    (runSync (SyncFetches.mk (Except.error "boom") (Except.ok ()) (Except.ok ())
      (Except.ok ()))).masterWritten = false
    ∧ (runSync (SyncFetches.mk (Except.error "boom") (Except.ok ()) (Except.ok ())
      (Except.ok ()))).exitCode = 0 := ⟨rfl, rfl⟩

/-- C1 (amended): whenever an upstream fetch raises, the run writes neither
the unified table nor the downloads cache and prints the fixed diagnostic
`"FATAL ERROR: Could not fetch data. Details: <e>"` — which carries only
the exception text and never names the failing source — but the process
exits with code 0, not a non-zero code. -/
theorem sync_fetch_failure_effects (f : SyncFetches) (e : String)
    (h : firstFetchError f = Option.some e) :
    runSync f = SyncEffects.mk false false 0 (Option.some (fatalMsg e)) := by
  simp [runSync, h]

/-- C1 witness: the amended statement at a concrete failing run. -/
theorem sync_fetch_failure_effects_witness :
    firstFetchError (SyncFetches.mk (Except.error "boom") (Except.ok ()) (Except.ok ())
      (Except.ok ())) = Option.some "boom"
    ∧ runSync (SyncFetches.mk (Except.error "boom") (Except.ok ()) (Except.ok ())
      (Except.ok ())) = SyncEffects.mk false false 0 (Option.some (fatalMsg "boom")) :=
  ⟨rfl, sync_fetch_failure_effects _ "boom" rfl⟩

/-! ## Claim C2 — the persisted column set -/

/-- Monotonicity of the column-existence fold: columns already present stay
present. -/
theorem mem_ensure_fold (cs : List String) (acc : List String) (c : String)
    (h : c ∈ acc) :
    c ∈ cs.foldl (fun a x => if a.contains x then a else a ++ [x]) acc := by
  induction cs generalizing acc with
  | nil => exact h
  | cons x xs ih =>
    simp only [List.foldl_cons]
    apply ih
    by_cases hx : acc.contains x = true
    · rw [if_pos hx]; exact h
    · rw [if_neg hx]; exact List.mem_append.mpr (Or.inl h)

/-- The column-existence fold adds every column of its first list. -/
theorem mem_ensure_fold_of_mem (cs : List String) (acc : List String) (c : String)
    (h : c ∈ cs) :
    c ∈ cs.foldl (fun a x => if a.contains x then a else a ++ [x]) acc := by
  induction cs generalizing acc with
  | nil => cases h
  | cons x xs ih =>
    simp only [List.foldl_cons]
    rcases List.mem_cons.mp h with h1 | h1
    · subst h1
      apply mem_ensure_fold
      by_cases hx : acc.contains c = true
      · rw [if_pos hx]; simpa using hx
      · rw [if_neg hx]; exact List.mem_append.mpr (Or.inr (List.mem_singleton.mpr rfl))
    · exact ih _ h1

/-- After the loop of lines 255-265, every column of `final_cols` exists. -/
theorem ensureCols_complete (present : List String) :
    ∀ c ∈ final_cols, c ∈ ensureCols present :=
  fun c hc => mem_ensure_fold_of_mem final_cols present c hc

/-- C2 counterexample: the DatasetRecord schema of spec §3 contains a
`downloads` column, but the persisted table's column list `final_cols`
(lines 247-252) does not. -/
theorem saved_columns_counterexample :
    "downloads" ∈ specDatasetRecordCols ∧ "downloads" ∉ final_cols := by decide

/-- C2 (amended): whatever columns the frame holds before finalization,
the persisted unified table has exactly the column list `final_cols` of
lines 247-252 — which carries the raw download-ID columns
`collection_downloads` and `result_downloads` but no `downloads` column of
attached DownloadRecord descriptors; the projected download rows live only
in the separate downloads cache table, whose columns are the configured
field list minus `download_file`. -/
theorem saved_columns_exact (present : List String) :
    savedColumns present = Option.some final_cols
    ∧ "collection_downloads" ∈ final_cols
    ∧ "result_downloads" ∈ final_cols
    ∧ "downloads" ∉ final_cols
    ∧ "download_file" ∉ downloadsCacheCols
    ∧ "download_url" ∈ downloadsCacheCols := by
  refine ⟨?_, by decide, by decide, by decide, by decide, by decide⟩
  have hall : final_cols.all (fun c => (ensureCols present).contains c) = true := by
    rw [List.all_eq_true]
    intro c hc
    simpa using ensureCols_complete present c hc
  unfold savedColumns selectCols
  rw [if_pos hall]

/-! ## Claim C6 — related-dataset resolution -/

/-- C6 counterexample: a record whose three relationship fields contribute
the ID 7 twice resolves to a `related_datasets` list of length 2 (lines
187-189 do not deduplicate), while the number of distinct IDs is 1. -/
theorem related_no_dedup_counterexample :
    (resolveRelated
        (fun k => if k == "7" then Option.some "Brain-MRI" else Option.none)
        (relatedDatasetsIds (PyVal.vList [PyVal.vInt 7]) (PyVal.vList [PyVal.vInt 7])
          (PyVal.vStr ""))).length = 2
    ∧ (((relatedDatasetsIds (PyVal.vList [PyVal.vInt 7]) (PyVal.vList [PyVal.vInt 7])
          (PyVal.vStr "")).map pyStr).dedup).length = 1 := by decide

/-- C6 (amended): for every record, `related_datasets` has exactly one
entry per entry of `related_datasets_ids` — duplicates included, so its
length equals the length of the ID list, not the number of distinct IDs —
and the resolved list is a permutation (sorted) of the per-ID resolutions,
each being the mapped title or the `"ID: <id>"` placeholder, so no ID is
silently dropped. -/
theorem related_resolution_no_drop (m : String → Option String) (ids : List PyVal) :
    (resolveRelated m ids).length = ids.length
    ∧ (resolveRelated m ids).Perm
        (ids.map (fun i => (m (pyStr i)).getD ("ID: " ++ pyStr i))) := by
  have hp := List.perm_insertionSort (fun a b : String => pyStrLe a b = true)
    (ids.map (fun i => (m (pyStr i)).getD ("ID: " ++ pyStr i)))
  refine ⟨?_, hp⟩
  calc (resolveRelated m ids).length
      = (ids.map (fun i => (m (pyStr i)).getD ("ID: " ++ pyStr i))).length := hp.length_eq
    _ = ids.length := List.length_map _ _

/-! ## Claim C4 — when the citation cache file is rewritten -/

/-- C4 counterexample: a run whose only record needing a citation has an
empty DOI — the failure-pattern subset is non-empty, yet `new_citations`
stays empty (line 222 skips blank DOIs) and the cache file is not written
(line 224 `if new_citations:`). -/
theorem cache_write_skipped_counterexample :
    selectedRows [CitRecord.mk "" ""] = [CitRecord.mk "" ""]
    ∧ citationCacheWritten [CitRecord.mk "" ""] = false := by decide

/-- C4 (amended): the citation cache file is rewritten if and only if some
record of the failure-pattern subset has a DOI that is non-empty after
stripping whitespace; in particular when the subset is empty the file is
left untouched, but a non-empty subset of blank-DOI records also leaves it
untouched. -/
theorem cache_written_iff (recs : List CitRecord) :
    citationCacheWritten recs = true ↔
      ∃ r ∈ selectedRows recs, pyStrip r.doi ≠ "" := by
  unfold citationCacheWritten
  rw [Bool.and_eq_true, Bool.not_eq_true', Bool.not_eq_true']
  constructor
  · rintro ⟨hsel, hcalls⟩
    have h1 : citationCalls (selectedRows recs) ≠ [] := by
      intro h
      rw [h] at hcalls
      exact absurd hcalls (by simp)
    rcases List.exists_mem_of_ne_nil _ h1 with ⟨d, hd⟩
    unfold citationCalls at hd
    rcases List.mem_filterMap.mp hd with ⟨r, hr, hf⟩
    refine ⟨r, hr, fun hs => ?_⟩
    simp [hs] at hf
  · rintro ⟨r, hr, hne⟩
    have hmem : r.doi ∈ citationCalls (selectedRows recs) := by
      unfold citationCalls
      exact List.mem_filterMap.mpr
        ⟨r, hr, by rw [if_neg (by simpa using hne)]⟩
    constructor
    · rw [Bool.eq_false_iff]
      intro h
      exact List.ne_nil_of_mem hr (List.isEmpty_iff.mp h)
    · rw [Bool.eq_false_iff]
      intro h
      rw [List.isEmpty_iff.mp h] at hmem
      cases hmem

/-! ## Claim C5 — citation fetch loop -/

/-- One formatter call is made per selected row whose stripped DOI is
non-empty: the call list equals the DOIs of exactly those rows, in order. -/
theorem citationCalls_eq_filter (l : List CitRecord) :
    citationCalls l
      = (l.filter (fun x => !(pyStrip x.doi == ""))).map CitRecord.doi := by
  induction l with
  | nil => rfl
  | cons x xs ih =>
    unfold citationCalls at ih ⊢
    rw [List.filterMap_cons, List.filter_cons]
    simp only [beq_iff_eq] at ih ⊢
    by_cases hx : pyStrip x.doi = ""
    · simp [hx, ih]
    · simp [hx, ih]

/-- Lookup in a Python dict misses every key absent from the assignment
list. -/
theorem dictLookup_eq_none {kvs : List (String × String)} {k : String}
    (h : k ∉ kvs.map Prod.fst) : dictLookup kvs k = Option.none := by
  unfold dictLookup
  cases hf : kvs.reverse.find? (fun p => p.1 == k) with
  | none => rfl
  | some p =>
    exfalso
    have hp := List.find?_some hf
    have hmem := List.mem_of_find?_eq_some hf
    exact h (List.mem_map.mpr ⟨p, List.mem_reverse.mp hmem, by simpa using hp⟩)

/-- C5 counterexample: a selected record with an empty DOI is skipped by
the fetch loop (line 222) and keeps its empty citation after the merge of
line 225 — it is never assigned the placeholder `"No DOI provided."`. -/
theorem citation_empty_doi_counterexample :
    selectedRows [CitRecord.mk "" ""] = [CitRecord.mk "" ""]
    ∧ applyNewCitations
        (newCitations (fun d => "fetched " ++ d) (selectedRows [CitRecord.mk "" ""]))
        (CitRecord.mk "" "")
        = CitRecord.mk "" ""
    ∧ CitRecord.mk "" "" ≠ CitRecord.mk "" "No DOI provided." := by decide

/-- C5 (amended): every selected record with a non-empty (stripped) DOI
triggers exactly one call to the external citation formatter — the call
list is one DOI per such row — while a selected record with an empty
(stripped) DOI triggers no call at all and is left with its existing
(empty) citation rather than being assigned `"No DOI provided."`. -/
theorem citation_empty_doi_skipped (fetch : String → String) (recs : List CitRecord)
    (r : CitRecord) (_hr : r ∈ selectedRows recs) (hd : pyStrip r.doi = "") :
    citationCalls (selectedRows recs)
      = ((selectedRows recs).filter (fun x => !(pyStrip x.doi == ""))).map CitRecord.doi
    ∧ r.doi ∉ citationCalls (selectedRows recs)
    ∧ applyNewCitations (newCitations fetch (selectedRows recs)) r = r := by
  have hnot : r.doi ∉ citationCalls (selectedRows recs) := by
    intro hmem
    unfold citationCalls at hmem
    rcases List.mem_filterMap.mp hmem with ⟨x, hx, hfx⟩
    by_cases hsx : (pyStrip x.doi == "") = true
    · simp [hsx] at hfx
    · rw [if_neg hsx] at hfx
      have hxd : x.doi = r.doi := Option.some.inj hfx
      exact hsx (beq_iff_eq.mpr (by rw [hxd, hd]))
  refine ⟨citationCalls_eq_filter _, hnot, ?_⟩
  have hkeys : (newCitations fetch (selectedRows recs)).map Prod.fst
      = citationCalls (selectedRows recs) := by
    unfold newCitations
    rw [List.map_map]
    have hcomp : (Prod.fst ∘ fun d : String => (d, fetch d)) = fun d => d := rfl
    rw [hcomp]
    simp
  have hlook : dictLookup (newCitations fetch (selectedRows recs)) r.doi
      = Option.none := by
    apply dictLookup_eq_none
    rw [hkeys]
    exact hnot
  simp [applyNewCitations, hlook]

/-- C5 witness: the amended statement at a concrete run with one blank-DOI
record and one real-DOI record. -/
theorem citation_empty_doi_skipped_witness :
    CitRecord.mk "" "" ∈ selectedRows [CitRecord.mk "" "", CitRecord.mk "10.1/a" ""]
    ∧ pyStrip (CitRecord.mk "" "").doi = ""
    ∧ (citationCalls (selectedRows [CitRecord.mk "" "", CitRecord.mk "10.1/a" ""])
        = ((selectedRows [CitRecord.mk "" "", CitRecord.mk "10.1/a" ""]).filter
            (fun x => !(pyStrip x.doi == ""))).map CitRecord.doi
      ∧ (CitRecord.mk "" "").doi
          ∉ citationCalls (selectedRows [CitRecord.mk "" "", CitRecord.mk "10.1/a" ""])
      ∧ applyNewCitations
          (newCitations (fun d => "cited " ++ d)
            (selectedRows [CitRecord.mk "" "", CitRecord.mk "10.1/a" ""]))
          (CitRecord.mk "" "")
          = CitRecord.mk "" "") :=
  ⟨by decide, by decide,
    citation_empty_doi_skipped (fun d => "cited " ++ d) _ _ (by decide) (by decide)⟩

/-! ## Claim C7 — abstract merge and the persisted summary -/

/-- C7: the abstract merge is indeed a left join by lower-cased DOI — a
case-differing DataCite DOI does match — but a record with no match gets
NaN, and the finalization of line 241 (`astype(str).fillna('')`) renders
that NaN as the string `"nan"`, not the empty string: the `fillna('')`
runs after `astype(str)` and is dead code. -/
theorem summary_nan_bug :
    mergeSummaries [("10.5/y", "A desc")] ["10.1/X"]
      = [SummaryRecord.mk "10.1/X" Option.none]
    ∧ mergeSummaries [("10.1/x", "A desc")] ["10.1/X"]
      = [SummaryRecord.mk "10.1/X" (Option.some "A desc")]
    ∧ finalizeStringCell Option.none = "nan"
    ∧ ("nan" : String) ≠ "" := by decide

/-! ## Claim C3 — invariants of the citation-cache update -/

/-- Elements of the deduplicated cache come from the input list. -/
theorem mem_of_mem_dropDupKeepLast {e : CitEntry} : ∀ {l : List CitEntry},
    e ∈ dropDupKeepLast l → e ∈ l
  | [], h => by rw [dropDupKeepLast] at h; exact h
  | x :: xs, h => by
    by_cases hx : xs.any (fun e2 => e2.doi == x.doi) = true
    · have h2 : e ∈ dropDupKeepLast xs := by simpa [dropDupKeepLast, hx] using h
      exact List.mem_cons_of_mem _ (mem_of_mem_dropDupKeepLast h2)
    · have h2 : e = x ∨ e ∈ dropDupKeepLast xs := by
        simpa [dropDupKeepLast, hx] using h
      rcases h2 with h2 | h2
      · exact h2 ▸ List.mem_cons_self _ _
      · exact List.mem_cons_of_mem _ (mem_of_mem_dropDupKeepLast h2)

/-- The deduplicated cache holds pairwise distinct DOIs. -/
theorem dropDupKeepLast_doi_nodup : ∀ l : List CitEntry,
    ((dropDupKeepLast l).map CitEntry.doi).Nodup
  | [] => by simp [dropDupKeepLast]
  | x :: xs => by
    by_cases hx : xs.any (fun e2 => e2.doi == x.doi) = true
    · simpa [dropDupKeepLast, hx] using dropDupKeepLast_doi_nodup xs
    · rw [show dropDupKeepLast (x :: xs) = x :: dropDupKeepLast xs by
        simp [dropDupKeepLast, hx]]
      rw [List.map_cons, List.nodup_cons]
      refine ⟨?_, dropDupKeepLast_doi_nodup xs⟩
      intro hmem
      rcases List.mem_map.mp hmem with ⟨e, he, hdoi⟩
      exact hx (List.any_eq_true.mpr
        ⟨e, mem_of_mem_dropDupKeepLast he, beq_iff_eq.mpr hdoi⟩)

/-- An occurrence whose DOI does not recur later in the list survives the
keep-last deduplication. -/
theorem dropDupKeepLast_keep (e : CitEntry) : ∀ (l1 l2 : List CitEntry),
    (∀ e2 ∈ l2, e2.doi ≠ e.doi) → e ∈ dropDupKeepLast (l1 ++ e :: l2)
  | [], l2, h => by
    have hany : l2.any (fun e2 => e2.doi == e.doi) = false := by
      rw [List.any_eq_false]
      intro e2 he2
      exact fun hb => h e2 he2 (beq_iff_eq.mp hb)
    simp [dropDupKeepLast, hany]
  | x :: l1, l2, h => by
    have ih := dropDupKeepLast_keep e l1 l2 h
    rw [List.cons_append]
    by_cases hx : (l1 ++ e :: l2).any (fun e2 => e2.doi == x.doi) = true
    · simpa [dropDupKeepLast, hx] using ih
    · simp only [dropDupKeepLast, hx, if_false]
      exact List.mem_cons_of_mem _ ih

/-- C3 counterexample: starting from a cache that holds two entries for the
same DOI `"d"`, a run that fetches only the unrelated DOI `"e"` writes a
cache in which the earlier `"d"` entry has been deleted — an entry whose
DOI was not fetched this run is not preserved. -/
theorem cache_dup_lost_counterexample :
    updateCitationCache [CitEntry.mk "d" "a", CitEntry.mk "d" "b"] [CitEntry.mk "e" "c"]
      = [CitEntry.mk "d" "b", CitEntry.mk "e" "c"]
    ∧ CitEntry.mk "d" "a"
        ∉ updateCitationCache [CitEntry.mk "d" "a", CitEntry.mk "d" "b"]
            [CitEntry.mk "e" "c"]
    ∧ (CitEntry.mk "e" "c").doi ≠ (CitEntry.mk "d" "a").doi := by decide

/-- C3 (amended): provided the starting cache satisfies the at-most-one-
entry-per-DOI invariant (the fetched batch does by construction, being a
dict), the written cache again has at most one entry per DOI, every newly
fetched entry is present and is the only entry for its DOI (overwriting
any previously cached value), and every starting entry whose DOI was not
fetched this run is preserved unchanged. -/
theorem citation_cache_update_ok (cache newBatch : List CitEntry)
    (hc : (cache.map CitEntry.doi).Nodup) (hn : (newBatch.map CitEntry.doi).Nodup) :
    ((updateCitationCache cache newBatch).map CitEntry.doi).Nodup
    ∧ (∀ e ∈ newBatch, e ∈ updateCitationCache cache newBatch
        ∧ ∀ e2 ∈ updateCitationCache cache newBatch, e2.doi = e.doi → e2 = e)
    ∧ (∀ e ∈ cache, (∀ e2 ∈ newBatch, e2.doi ≠ e.doi) →
        e ∈ updateCitationCache cache newBatch) := by
  have hnodup := dropDupKeepLast_doi_nodup (cache ++ newBatch)
  refine ⟨hnodup, ?_, ?_⟩
  · intro e he
    rcases List.mem_iff_append.mp he with ⟨n1, n2, hsplit⟩
    have hn2 : ∀ e2 ∈ n2, e2.doi ≠ e.doi := by
      intro e2 he2 hEq
      rw [hsplit, List.map_append, List.map_cons] at hn
      have hnd := (List.nodup_append.mp hn).2.1
      exact (List.nodup_cons.mp hnd).1 (List.mem_map.mpr ⟨e2, he2, hEq⟩)
    have hmem : e ∈ updateCitationCache cache newBatch := by
      unfold updateCitationCache
      rw [hsplit, ← List.append_assoc]
      exact dropDupKeepLast_keep e (cache ++ n1) n2 hn2
    exact ⟨hmem, fun e2 he2 hdoi => List.inj_on_of_nodup_map hnodup he2 hmem hdoi⟩
  · intro e he hno
    rcases List.mem_iff_append.mp he with ⟨c1, c2, hsplit⟩
    have hc2 : ∀ e2 ∈ c2, e2.doi ≠ e.doi := by
      intro e2 he2 hEq
      rw [hsplit, List.map_append, List.map_cons] at hc
      have hnd := (List.nodup_append.mp hc).2.1
      exact (List.nodup_cons.mp hnd).1 (List.mem_map.mpr ⟨e2, he2, hEq⟩)
    unfold updateCitationCache
    rw [hsplit, List.append_assoc, List.cons_append]
    apply dropDupKeepLast_keep e c1 (c2 ++ newBatch)
    intro e2 he2
    rcases List.mem_append.mp he2 with h2 | h2
    · exact hc2 e2 h2
    · exact hno e2 h2

/-- C3 witness: the amended statement at a one-entry cache whose failed
entry for DOI `"a"` is overwritten by a fresh fetch. -/
theorem citation_cache_update_ok_witness :
    (([CitEntry.mk "a" "Citation not found for DOI: a"] : List CitEntry).map
        CitEntry.doi).Nodup
    ∧ (([CitEntry.mk "a" "Smith (2020)"] : List CitEntry).map CitEntry.doi).Nodup
    ∧ (((updateCitationCache [CitEntry.mk "a" "Citation not found for DOI: a"]
            [CitEntry.mk "a" "Smith (2020)"]).map CitEntry.doi).Nodup
      ∧ (∀ e ∈ [CitEntry.mk "a" "Smith (2020)"],
          e ∈ updateCitationCache [CitEntry.mk "a" "Citation not found for DOI: a"]
              [CitEntry.mk "a" "Smith (2020)"]
          ∧ ∀ e2 ∈ updateCitationCache [CitEntry.mk "a" "Citation not found for DOI: a"]
              [CitEntry.mk "a" "Smith (2020)"], e2.doi = e.doi → e2 = e)
      ∧ (∀ e ∈ [CitEntry.mk "a" "Citation not found for DOI: a"],
          (∀ e2 ∈ [CitEntry.mk "a" "Smith (2020)"], e2.doi ≠ e.doi) →
          e ∈ updateCitationCache [CitEntry.mk "a" "Citation not found for DOI: a"]
              [CitEntry.mk "a" "Smith (2020)"])) :=
  ⟨by decide, by decide,
    citation_cache_update_ok [CitEntry.mk "a" "Citation not found for DOI: a"]
      [CitEntry.mk "a" "Smith (2020)"] (by decide) (by decide)⟩

/-! ## Claim C10 — case sensitivity of the citation join -/

/-- C10: the citation cache is joined by exact, case-sensitive DOI equality
(line 210 merges on `doi` as-is), unlike the abstract merge, which joins on
lower-cased DOI (lines 195-196): a record whose DOI differs from every
cached entry's DOI `d2` only in letter case gets the empty citation, is
selected for re-fetch with exactly one formatter call, and yet the same
case-differing DOI does match in the DataCite abstract merge. -/
theorem citation_join_case_sensitive (cache : List CitEntry) (d1 d2 desc : String)
    (hcache : ∀ e ∈ cache, e.doi = d2) (hne : d1 ≠ d2)
    (hlow : pyLower d1 = pyLower d2) (hd : pyStrip d1 ≠ "") :
    mergeCitations cache [d1] = [CitRecord.mk d1 ""]
    ∧ selectedRows (mergeCitations cache [d1]) = [CitRecord.mk d1 ""]
    ∧ citationCalls (selectedRows (mergeCitations cache [d1])) = [d1]
    ∧ mergeSummaries [(d2, desc)] [d1] = [SummaryRecord.mk d1 (Option.some desc)] := by
  have hfilter : cache.filter (fun e => e.doi == d1) = [] := by
    rw [List.filter_eq_nil_iff]
    intro e he hbeq
    exact hne ((beq_iff_eq.mp hbeq).symm.trans (hcache e he))
  have h1 : mergeCitations cache [d1] = [CitRecord.mk d1 ""] := by
    unfold mergeCitations
    simp only [List.map_cons, List.map_nil]
    rw [hfilter]
    rfl
  have hfail : isFailureCitation "" = true := by decide
  have hsel : selectedRows (mergeCitations cache [d1]) = [CitRecord.mk d1 ""] := by
    rw [h1]
    unfold selectedRows
    simp [hfail]
  refine ⟨h1, hsel, ?_, ?_⟩
  · rw [hsel]
    unfold citationCalls
    simp [hd]
  · unfold mergeSummaries
    simp [hlow]

/-- C10 witness: the statement at the cached DOI `"10.1/x"` and the record
DOI `"10.1/X"`, differing only in the case of one letter. -/
theorem citation_join_case_sensitive_witness :
    (CitEntry.mk "10.1/x" "Smith (2020)").doi = "10.1/x"
    ∧ ("10.1/X" : String) ≠ "10.1/x"
    ∧ pyLower "10.1/X" = pyLower "10.1/x"
    ∧ pyStrip "10.1/X" ≠ ""
    ∧ (mergeCitations [CitEntry.mk "10.1/x" "Smith (2020)"] ["10.1/X"]
        = [CitRecord.mk "10.1/X" ""]
      ∧ selectedRows (mergeCitations [CitEntry.mk "10.1/x" "Smith (2020)"] ["10.1/X"])
        = [CitRecord.mk "10.1/X" ""]
      ∧ citationCalls (selectedRows
          (mergeCitations [CitEntry.mk "10.1/x" "Smith (2020)"] ["10.1/X"]))
        = ["10.1/X"]
      ∧ mergeSummaries [("10.1/x", "The abstract.")] ["10.1/X"]
        = [SummaryRecord.mk "10.1/X" (Option.some "The abstract.")]) :=
  ⟨rfl, by decide, by decide, by decide,
    citation_join_case_sensitive [CitEntry.mk "10.1/x" "Smith (2020)"]
      "10.1/X" "10.1/x" "The abstract." (by decide) (by decide) (by decide) (by decide)⟩

end TciaSync
